import Mathlib

/-!
Verification of the safe-tag library (stable revision in `src/unnamed/part_003`).

The earlier revision in `src/src/index.ts` is not embedded: inside `getRawTag`,
the `try` opened at line 93 (within the restoration `finally`) has no `catch`
or `finally` clause — the closing braces at lines 104-107 close the two `if`s,
the bare `try` block, and the enclosing `finally` — so that file is a
SyntaxError, cannot parse or load, and has no runtime behaviour to model.

The library computes the "string tag" of an arbitrary JavaScript value.  We give
a shallow embedding of the value universe as seen by the two entry points:

* `TagValue` classifies an input as `null`, `undefined`, a primitive, or an
  object-like value (`ObjState`).
* `ObjState` records everything `Object.prototype.toString`,
  `Object.getOwnPropertyDescriptor` and `Object.defineProperty` can observe or
  change on a value through the single key `Symbol.toStringTag` that the source
  ever touches: the own property at that key (`own`), the value a prototype
  chain lookup would produce (`inherited`), the engine builtin tag (`builtin`),
  and the hostile behaviours exercised by the repository's own tests: a
  descriptor-lookup trap that throws (`gopdThrows`), a `[[Get]]` that throws
  (`getThrows`, which also covers revoked proxies), and a `defineProperty` trap
  whose success depends on how many define calls it has seen (`defineFails`
  consulted at `defineCount`, as in the "Restore Failure" test proxy).
  `otherProps` stands for every other property of the value; no operation of
  the source ever touches it.

Throwing primitives are embedded as `Except Unit`-valued functions; mutation is
explicit state passing.  The try/catch/finally structure of the source is
mirrored branch for branch.
-/

/-- Engine builtin tags: the fixed identifiers `Object.prototype.toString` can
produce on its own (ES OrdinaryToString builtin tags plus the primitive typeof
kinds).  Named kinds such as `Map` reach the output only through an inherited
`Symbol.toStringTag`, which the model keeps in `ObjState.inherited`. -/
inductive EngineTag where
  | object | array | arguments | func | error | boolean
  | number | string | date | regexp | symbol | bigint
deriving DecidableEq

/-- Text of an engine builtin tag, as spliced into "[object _]". -/
def EngineTag.text : EngineTag → String
  | .object => "Object"
  | .array => "Array"
  | .arguments => "Arguments"
  | .func => "Function"
  | .error => "Error"
  | .boolean => "Boolean"
  | .number => "Number"
  | .string => "String"
  | .date => "Date"
  | .regexp => "RegExp"
  | .symbol => "Symbol"
  | .bigint => "BigInt"

/-- Own-property descriptor at the `Symbol.toStringTag` key, as captured by
`Object.getOwnPropertyDescriptor` and written back by `Object.defineProperty`.
A data descriptor's `value` is `some w` when it is the string `w` and `none`
when it is `undefined` (or any non-string, which `toString` ignores alike).
`accessorThrows` is an accessor descriptor whose getter throws, as built by the
repository's "hostile getter" tests. -/
inductive Descriptor where
  | dataDesc (value : Option String) (writable enumerable configurable : Bool)
  | accessorThrows (enumerable configurable : Bool)
deriving DecidableEq

/-- Configurable flag of a descriptor. -/
def Descriptor.configurable : Descriptor → Bool
  | .dataDesc _ _ _ c => c
  | .accessorThrows _ c => c

/-- The masking descriptor the source writes:
`{ configurable: true, enumerable: false, value: undefined, writable: true }`. -/
def maskDesc : Descriptor := .dataDesc none true false true

/-- State of an object-like value, restricted to what the source can observe or
mutate; see the module comment. -/
structure ObjState where
  isFun : Bool
  builtin : EngineTag
  own : Option Descriptor
  inherited : Option String
  gopdThrows : Bool
  getThrows : Bool
  defineFails : Nat → Bool
  defineCount : Nat
  otherProps : List (String × String)

/-- A caller-supplied value as classified by the source's typeof checks. -/
inductive TagValue where
  | vNull
  | vUndefined
  | vPrim (t : EngineTag)
  | vObj (o : ObjState)

/-- The engine `[[Get]]` of the `Symbol.toStringTag` key performed inside
`Object.prototype.toString`: a throwing proxy/revoked reference throws, an own
data property shadows the prototype chain, an own throwing getter throws, and
an absent own property falls through to the inherited value. -/
def getTagProp (o : ObjState) : Except Unit (Option String) :=
  if o.getThrows then .error () else
  match o.own with
  | some (.dataDesc v _ _ _) => .ok v
  | some (.accessorThrows _ _) => .error ()
  | none => .ok o.inherited

/-- Modelled from the spec: the Native Tag Reader's underlying engine primitive
`Object.prototype.toString` (spec section 4.1; the `src/internal/native` module
that re-exports it is absent from `src/`).  Per ES semantics it uses the
`Symbol.toStringTag` lookup when that yields a string and the builtin tag
otherwise, and it throws when the lookup throws. -/
def nativeToStringObj (o : ObjState) : Except Unit String :=
  match getTagProp o with
  | .error _ => .error ()
  | .ok (some w) => .ok ("[object " ++ w ++ "]")
  | .ok none => .ok ("[object " ++ o.builtin.text ++ "]")

/-- Modelled from the spec: `Object.prototype.toString` applied to an arbitrary
value (boxing primitives, special-casing the two sentinels). -/
def nativeToStringE : TagValue → Except Unit String
  | .vNull => .ok "[object Null]"
  | .vUndefined => .ok "[object Undefined]"
  | .vPrim t => .ok ("[object " ++ t.text ++ "]")
  | .vObj o => nativeToStringObj o

/-- The engine `Object.getOwnPropertyDescriptor` at the tag key: throws when the
descriptor-lookup trap throws, otherwise reports the own descriptor. -/
def getOwnDescriptorE (o : ObjState) : Except Unit (Option Descriptor) :=
  if o.gopdThrows then .error () else .ok o.own

/-- The engine `Object.defineProperty` at the tag key: the trap sees one more
call (its counter advances even on failure, as in the test proxies); on success
the own property becomes exactly the supplied descriptor, on failure the state
of the property is unchanged. -/
def definePropertyE (o : ObjState) (d : Descriptor) : Except Unit Unit × ObjState :=
  let n := o.defineCount
  let o₁ : ObjState := { o with defineCount := n + 1 }
  if o.defineFails n then (.error (), o₁) else (.ok (), { o₁ with own := some d })

/-- Stable revision (`src/unnamed/part_003`): `safeTag`.  Null and undefined
short-circuit; everything else is one protected `nativeToString.call`, with the
catch returning the generic tag.  The returned state is the input value:
`safeTag` performs no defineProperty call. -/
def safeTag : TagValue → Except Unit String × TagValue
  | .vNull => (.ok "[object Null]", .vNull)
  | .vUndefined => (.ok "[object Undefined]", .vUndefined)
  | v =>
    match nativeToStringE v with
    | .ok s => (.ok s, v)
    | .error _ => (.ok "[object Object]", v)

/-- Stable revision: the body of `unmaskTag` once the value is object-like.
Mirrors the source's nesting: an outer try whose catch returns
`safeTag(value)`, around a `try { defineProperty(mask); return
nativeToString.call(value) } finally { try { defineProperty(descriptor) } catch
\x7b\x7d }`.  The finally clause runs on every exit of the inner try, its own
failure is swallowed, and an error escaping the inner try reaches the outer
catch with the mutations performed so far still in place. -/
def unmaskTagObj (o : ObjState) : Except Unit String × ObjState :=
  match getOwnDescriptorE o with
  | .error _ => ((safeTag (.vObj o)).1, o)
  | .ok none => ((safeTag (.vObj o)).1, o)
  | .ok (some d) =>
    if d.configurable = false then ((safeTag (.vObj o)).1, o)
    else
      match definePropertyE o maskDesc with
      | (.error _, o₁) =>
        let r := definePropertyE o₁ d
        ((safeTag (.vObj r.2)).1, r.2)
      | (.ok _, o₁) =>
        let t := nativeToStringObj o₁
        let r := definePropertyE o₁ d
        match t with
        | .ok s => (.ok s, r.2)
        | .error _ => ((safeTag (.vObj r.2)).1, r.2)

/-- Stable revision: `unmaskTag`.  Null and non-object-like values delegate to
`safeTag`; the environment check on `symToStringTag` is satisfied in the
modelled runtime (the symbol exists). -/
def unmaskTag : TagValue → Except Unit String × TagValue
  | .vObj o =>
    let r := unmaskTagObj o
    (r.1, .vObj r.2)
  | v => safeTag v

/-- A friendly plain object carrying an own, configurable custom override
"Custom": the third example scenario of the spec. -/
def customTagged : ObjState :=
  { isFun := false
    builtin := .object
    own := some (.dataDesc (some "Custom") true true true)
    inherited := none
    gopdThrows := false
    getThrows := false
    defineFails := fun _ => false
    defineCount := 0
    otherProps := [("k", "v")] }

example : (safeTag (.vPrim .number)).1 = .ok "[object Number]" := by rfl

example : (safeTag (.vObj customTagged)).1 = .ok "[object Custom]" := by rfl

example : (unmaskTag (.vObj customTagged)).1 = .ok "[object Object]" := by rfl

/-- Own descriptor at the tag key of a value (none for non-objects). -/
def ownOf : TagValue → Option Descriptor
  | .vObj o => o.own
  | _ => none

/-- The other properties of a value (empty for non-objects). -/
def otherPropsOf : TagValue → List (String × String)
  | .vObj o => o.otherProps
  | _ => []

/-- Inherited tag override of a value (none for non-objects). -/
def inheritedOf : TagValue → Option String
  | .vObj o => o.inherited
  | _ => none

/-- A value whose restore fails: own configurable override "Orig", an inherited
override "Proto" underneath, and a defineProperty trap that accepts the first
define (the mask) and throws on the second (the restore) — the shape of the
repository's "Restore Failure (The Mutation Guard)" test proxy. -/
def restoreFailObj : ObjState :=
  { isFun := false
    builtin := .object
    own := some (.dataDesc (some "Orig") true true true)
    inherited := some "Proto"
    gopdThrows := false
    getThrows := false
    defineFails := fun n => n == 1
    defineCount := 0
    otherProps := [("k", "v")] }

example : (unmaskTag (.vObj restoreFailObj)).1 = .ok "[object Object]" := by rfl

example : ownOf (unmaskTag (.vObj restoreFailObj)).2 = some maskDesc := by rfl

example : (safeTag (.vObj restoreFailObj)).1 = .ok "[object Orig]" := by rfl

/-- Word character in the sense of the regex class used by the repository's
fuzz test (`/^\[object \w+\]$/`). -/
def isWordChar (c : Char) : Bool := c.isAlphanum || c == '_'

/-- Decidable check that a string has the exact shape "[object W]" with `W` a
nonempty run of word characters. -/
def tagPatternB (s : String) : Bool :=
  let cs := s.data
  let rest := cs.drop 8
  decide (cs.take 8 = "[object ".data) && decide (rest.getLast? = some ']') &&
    !rest.dropLast.isEmpty && rest.dropLast.all isWordChar

theorem tagPatternB_tagForm (t : String) (h1 : t.data ≠ [])
    (h2 : t.data.all isWordChar = true) :
    tagPatternB ("[object " ++ t ++ "]") = true := by
  have hd : ("[object " ++ t ++ "]").data = "[object ".data ++ (t.data ++ [']']) := by
    rw [String.data_append, String.data_append, List.append_assoc]
  have h8 : ("[object ".data).length = 8 := by rfl
  simp only [tagPatternB, hd]
  rw [← h8, List.take_left, List.drop_left]
  simp [List.getLast?_concat, List.dropLast_concat, h2, List.isEmpty_iff, h1]

theorem engineTag_text_word (e : EngineTag) :
    e.text.data ≠ [] ∧ e.text.data.all isWordChar = true := by
  cases e <;> exact ⟨by decide, by decide⟩

/-- State component of the stable `safeTag` is always the unchanged input: the
function calls no mutating primitive. -/
theorem safeTag_state (v : TagValue) : (safeTag v).2 = v := by
  cases v with
  | vNull => rfl
  | vUndefined => rfl
  | vPrim t => rfl
  | vObj o =>
    show (match nativeToStringE (.vObj o) with
      | .ok s => ((Except.ok s : Except Unit String), TagValue.vObj o)
      | .error _ => (.ok "[object Object]", .vObj o)).2 = .vObj o
    cases nativeToStringE (.vObj o) <;> rfl

/-- Stable `safeTag` always returns a string (its one protected call is caught). -/
theorem safeTag_ok (v : TagValue) : ∃ s, (safeTag v).1 = .ok s := by
  cases v with
  | vNull => exact ⟨_, rfl⟩
  | vUndefined => exact ⟨_, rfl⟩
  | vPrim t => exact ⟨_, rfl⟩
  | vObj o =>
    show ∃ s, (match nativeToStringE (.vObj o) with
      | .ok s => ((Except.ok s : Except Unit String), TagValue.vObj o)
      | .error _ => (.ok "[object Object]", .vObj o)).1 = .ok s
    cases nativeToStringE (.vObj o) <;> exact ⟨_, rfl⟩

theorem getOwnDescriptorE_ok {o : ObjState} {od : Option Descriptor}
    (h : getOwnDescriptorE o = .ok od) : o.own = od := by
  unfold getOwnDescriptorE at h
  by_cases hg : o.gopdThrows <;> simp [hg] at h
  exact h

theorem definePropertyE_fail (o : ObjState) (d : Descriptor)
    (h : o.defineFails o.defineCount = true) :
    definePropertyE o d = (.error (), { o with defineCount := o.defineCount + 1 }) := by
  simp [definePropertyE, h]

theorem definePropertyE_succ (o : ObjState) (d : Descriptor)
    (h : o.defineFails o.defineCount = false) :
    definePropertyE o d =
      (.ok (), { o with defineCount := o.defineCount + 1, own := some d }) := by
  simp [definePropertyE, h]

theorem unmaskTagObj_ok (o : ObjState) : ∃ s, (unmaskTagObj o).1 = .ok s := by
  unfold unmaskTagObj
  cases hg : getOwnDescriptorE o with
  | error e => simpa using safeTag_ok (.vObj o)
  | ok od =>
    cases od with
    | none => simpa using safeTag_ok (.vObj o)
    | some d =>
      by_cases hc : d.configurable = false
      · simpa [hc] using safeTag_ok (.vObj o)
      · simp only [hc, if_false]
        rcases hdef : definePropertyE o maskDesc with ⟨r, o₁⟩
        cases r with
        | error e => simpa using safeTag_ok (.vObj (definePropertyE o₁ d).2)
        | ok u =>
          cases ht : nativeToStringObj o₁ with
          | ok s => exact ⟨s, by simp [ht]⟩
          | error e => simpa [ht] using safeTag_ok (.vObj (definePropertyE o₁ d).2)

/-- Claim C2: for every input value — null, undefined, primitives, objects,
and hostile object-like values whose getters, descriptor-lookup traps or
property-definition traps throw — both `safeTag` and `unmaskTag` return a
string and never throw. -/
theorem safeTag_unmaskTag_total (v : TagValue) :
    (∃ s, (safeTag v).1 = .ok s) ∧ (∃ s, (unmaskTag v).1 = .ok s) := by
  refine ⟨safeTag_ok v, ?_⟩
  cases v with
  | vNull => exact safeTag_ok .vNull
  | vUndefined => exact safeTag_ok .vUndefined
  | vPrim t => exact safeTag_ok (.vPrim t)
  | vObj o =>
    obtain ⟨s, hs⟩ := unmaskTagObj_ok o
    exact ⟨s, by simpa [unmaskTag] using hs⟩

/-- Claim C5: a call to the stable `safeTag` performs no mutation of the input
under any circumstance — the value's state after the call, including its own
property at the tag-override key and every other property, is the input state,
even when the value carries an own configurable tag-override. -/
theorem safeTag_no_mutation (v : TagValue) : (safeTag v).2 = v :=
  safeTag_state v

/-- Claim C4: for a value carrying an own, configurable custom tag-override set
to word `W` (and whose tag lookup does not throw), `safeTag` returns
"[object W]" — it respects the visible override and does not unmask it. -/
theorem safeTag_respects_own_override (o : ObjState) (W : String) (wr en : Bool)
    (hown : o.own = some (.dataDesc (some W) wr en true))
    (hget : o.getThrows = false) :
    (safeTag (.vObj o)).1 = .ok ("[object " ++ W ++ "]") := by
  show (match nativeToStringE (.vObj o) with
    | .ok s => ((Except.ok s : Except Unit String), TagValue.vObj o)
    | .error _ => (.ok "[object Object]", .vObj o)).1 = _
  simp [nativeToStringE, nativeToStringObj, getTagProp, hown, hget]

/-- Witness for claim C4 at the spec's own example: a plain object with own
configurable override "Custom". -/
theorem safeTag_respects_own_override_witness :
    customTagged.own = some (.dataDesc (some "Custom") true true true) ∧
      customTagged.getThrows = false ∧
      (safeTag (.vObj customTagged)).1 = .ok ("[object " ++ "Custom" ++ "]") :=
  ⟨rfl, rfl, safeTag_respects_own_override customTagged "Custom" true true rfl rfl⟩

theorem nativeToStringObj_masked (o : ObjState) (n : Nat) (hget : o.getThrows = false) :
    nativeToStringObj { o with defineCount := n, own := some maskDesc } =
      .ok ("[object " ++ o.builtin.text ++ "]") := by
  simp [nativeToStringObj, getTagProp, maskDesc, hget]

theorem unmaskTagObj_success_path (o : ObjState) (d : Descriptor)
    (hg : o.gopdThrows = false) (hown : o.own = some d) (hc : d.configurable = true)
    (hget : o.getThrows = false)
    (hm : o.defineFails o.defineCount = false)
    (hr : o.defineFails (o.defineCount + 1) = false) :
    unmaskTagObj o =
      (.ok ("[object " ++ o.builtin.text ++ "]"),
       { o with defineCount := o.defineCount + 2, own := some d }) := by
  have hgo : getOwnDescriptorE o = .ok (some d) := by
    simp [getOwnDescriptorE, hg, hown]
  have hcf : (d.configurable = false) = False := by simp [hc]
  have hd1 := definePropertyE_succ o maskDesc hm
  have hmask := nativeToStringObj_masked o (o.defineCount + 1) hget
  have hd2 := definePropertyE_succ
    { o with defineCount := o.defineCount + 1, own := some maskDesc } d (by simpa using hr)
  simp only [unmaskTagObj, hgo, hcf, if_false, hd1, hmask, hd2]

theorem unmaskTagObj_restore_failure (o : ObjState) (d : Descriptor)
    (hg : o.gopdThrows = false) (hown : o.own = some d) (hc : d.configurable = true)
    (hget : o.getThrows = false)
    (hm : o.defineFails o.defineCount = false)
    (hr : o.defineFails (o.defineCount + 1) = true) :
    unmaskTagObj o =
      (.ok ("[object " ++ o.builtin.text ++ "]"),
       { o with defineCount := o.defineCount + 2, own := some maskDesc }) := by
  have hgo : getOwnDescriptorE o = .ok (some d) := by
    simp [getOwnDescriptorE, hg, hown]
  have hcf : (d.configurable = false) = False := by simp [hc]
  have hd1 := definePropertyE_succ o maskDesc hm
  have hmask := nativeToStringObj_masked o (o.defineCount + 1) hget
  have hd2 := definePropertyE_fail
    { o with defineCount := o.defineCount + 1, own := some maskDesc } d (by simpa using hr)
  simp only [unmaskTagObj, hgo, hcf, if_false, hd1, hmask, hd2]

/-- Claim C1 (amended): when the mask write succeeds, the masked read succeeds,
and the restore attempt throws, the stable `unmaskTag` swallows the restore
error, performs no secondary cleanup (the masking definition remains as the
value's own property at the tag-override key), and returns — without throwing —
exactly the tag obtained from the masked read, rather than falling back to
`safeTag`'s result. -/
theorem unmask_restore_failure_swallows (o : ObjState) (d : Descriptor)
    (hg : o.gopdThrows = false) (hown : o.own = some d) (hc : d.configurable = true)
    (hget : o.getThrows = false)
    (hm : o.defineFails o.defineCount = false)
    (hr : o.defineFails (o.defineCount + 1) = true) :
    (unmaskTag (.vObj o)).1 = .ok ("[object " ++ o.builtin.text ++ "]") ∧
    nativeToStringObj { o with defineCount := o.defineCount + 1, own := some maskDesc } =
      .ok ("[object " ++ o.builtin.text ++ "]") ∧
    (unmaskTag (.vObj o)).2 =
      .vObj { o with defineCount := o.defineCount + 2, own := some maskDesc } := by
  have h := unmaskTagObj_restore_failure o d hg hown hc hget hm hr
  refine ⟨?_, ?_, ?_⟩
  · show (unmaskTagObj o).1 = _
    rw [h]
  · simp [nativeToStringObj, getTagProp, maskDesc, hget]
  · show TagValue.vObj (unmaskTagObj o).2 = _
    rw [h]

/-- Witness for the amended claim C1 at the shape of the repository's "Restore
Failure (The Mutation Guard)" test proxy. -/
theorem unmask_restore_failure_swallows_witness :
    restoreFailObj.gopdThrows = false ∧
      restoreFailObj.own = some (.dataDesc (some "Orig") true true true) ∧
      Descriptor.configurable (.dataDesc (some "Orig") true true true) = true ∧
      restoreFailObj.getThrows = false ∧
      restoreFailObj.defineFails restoreFailObj.defineCount = false ∧
      restoreFailObj.defineFails (restoreFailObj.defineCount + 1) = true ∧
      (unmaskTag (.vObj restoreFailObj)).1 =
        .ok ("[object " ++ restoreFailObj.builtin.text ++ "]") :=
  ⟨rfl, rfl, rfl, rfl, rfl, rfl,
    (unmask_restore_failure_swallows restoreFailObj
      (.dataDesc (some "Orig") true true true) rfl rfl rfl rfl rfl rfl).1⟩

/-- Claim C1 counterexample: on the restore-failure proxy the stable
`unmaskTag` returns "[object Object]", which is precisely the tag obtained from
the masked read, leaves the masking definition in place instead of cleaning it
up, and does not return `safeTag`'s non-mutating result "[object Orig]". -/
theorem unmask_restore_failure_spec_counterexample :
    (unmaskTag (.vObj restoreFailObj)).1 = .ok "[object Object]" ∧
      nativeToStringObj { restoreFailObj with defineCount := 1, own := some maskDesc } =
        .ok "[object Object]" ∧
      ownOf (unmaskTag (.vObj restoreFailObj)).2 = some maskDesc ∧
      (safeTag (.vObj restoreFailObj)).1 = .ok "[object Orig]" ∧
      "[object Object]" ≠ "[object Orig]" :=
  ⟨rfl, rfl, rfl, rfl, by decide⟩

theorem definePropertyE_frame (o : ObjState) (d : Descriptor) :
    (definePropertyE o d).2.otherProps = o.otherProps ∧
    (definePropertyE o d).2.inherited = o.inherited ∧
    ((definePropertyE o d).2.own = o.own ∨ (definePropertyE o d).2.own = some d) := by
  simp only [definePropertyE]
  split
  · exact ⟨rfl, rfl, Or.inl rfl⟩
  · exact ⟨rfl, rfl, Or.inr rfl⟩

theorem definePropertyE_error_state {o : ObjState} {d : Descriptor} {e : Unit}
    {o₁ : ObjState} (h : definePropertyE o d = (.error e, o₁)) :
    o₁ = { o with defineCount := o.defineCount + 1 } := by
  by_cases hf : o.defineFails o.defineCount
  · rw [definePropertyE_fail o d hf] at h
    exact (Prod.mk.injEq _ _ _ _ ▸ h).2.symm
  · rw [definePropertyE_succ o d (by simpa using hf)] at h
    simp at h

theorem definePropertyE_ok_state {o : ObjState} {d : Descriptor} {u : Unit}
    {o₁ : ObjState} (h : definePropertyE o d = (.ok u, o₁)) :
    o₁ = { o with defineCount := o.defineCount + 1, own := some d } := by
  by_cases hf : o.defineFails o.defineCount
  · rw [definePropertyE_fail o d hf] at h
    simp at h
  · rw [definePropertyE_succ o d (by simpa using hf)] at h
    exact (Prod.mk.injEq _ _ _ _ ▸ h).2.symm

theorem unmaskTagObj_state (o : ObjState) :
    (unmaskTagObj o).2.otherProps = o.otherProps ∧
    (unmaskTagObj o).2.inherited = o.inherited ∧
    ((unmaskTagObj o).2.own = o.own ∨ (unmaskTagObj o).2.own = some maskDesc) := by
  simp only [unmaskTagObj]
  split
  · exact ⟨rfl, rfl, Or.inl rfl⟩
  · exact ⟨rfl, rfl, Or.inl rfl⟩
  next d heq =>
    have hown : o.own = some d := getOwnDescriptorE_ok heq
    split
    · exact ⟨rfl, rfl, Or.inl rfl⟩
    · split
      next e o₁ hdef =>
        obtain ⟨f1, f2, f3⟩ := definePropertyE_frame o₁ d
        have h1 := definePropertyE_error_state hdef
        subst h1
        exact ⟨f1, f2,
          f3.elim (fun h => Or.inl h) (fun h => Or.inl (h.trans hown.symm))⟩
      next u o₁ hdef =>
        obtain ⟨f1, f2, f3⟩ := definePropertyE_frame o₁ d
        have h1 := definePropertyE_ok_state hdef
        subst h1
        split
        · exact ⟨f1, f2,
            f3.elim (fun h => Or.inr h) (fun h => Or.inl (h.trans hown.symm))⟩
        · exact ⟨f1, f2,
            f3.elim (fun h => Or.inr h) (fun h => Or.inl (h.trans hown.symm))⟩

/-- Claim C3 (amended): after any call to the stable `unmaskTag` returns, no
property of the value other than the one at the tag-override key has been
touched, and the own property at that key is either bit-identical to its state
before the call or — exactly when a successful mask could not be restored —
left as the masking definition; in the latter case the returned result was
computed from the mutated value, not from a non-mutating fallback. -/
theorem unmask_state_invariant_amended (v : TagValue) :
    otherPropsOf (unmaskTag v).2 = otherPropsOf v ∧
    inheritedOf (unmaskTag v).2 = inheritedOf v ∧
    (ownOf (unmaskTag v).2 = ownOf v ∨ ownOf (unmaskTag v).2 = some maskDesc) := by
  cases v with
  | vNull => exact ⟨rfl, rfl, Or.inl rfl⟩
  | vUndefined => exact ⟨rfl, rfl, Or.inl rfl⟩
  | vPrim t =>
    have h := safeTag_state (.vPrim t)
    constructor
    · show otherPropsOf (safeTag (.vPrim t)).2 = _
      rw [h]
    constructor
    · show inheritedOf (safeTag (.vPrim t)).2 = _
      rw [h]
    · left
      show ownOf (safeTag (.vPrim t)).2 = _
      rw [h]
  | vObj o =>
    obtain ⟨h1, h2, h3⟩ := unmaskTagObj_state o
    exact ⟨h1, h2, h3⟩

/-- Claim C3 counterexample: on the restore-failure proxy the own property at
the tag-override key after the call is the masking definition, not the original
descriptor, and the returned result is neither `safeTag`'s result nor computed
without mutation — both disjuncts of the claimed invariant fail. -/
theorem unmask_state_invariant_counterexample :
    ownOf (unmaskTag (.vObj restoreFailObj)).2 = some maskDesc ∧
      ownOf (.vObj restoreFailObj) = some (.dataDesc (some "Orig") true true true) ∧
      maskDesc ≠ .dataDesc (some "Orig") true true true ∧
      (unmaskTag (.vObj restoreFailObj)).1 = .ok "[object Object]" ∧
      (safeTag (.vObj restoreFailObj)).1 = .ok "[object Orig]" ∧
      "[object Object]" ≠ "[object Orig]" :=
  ⟨rfl, rfl, by decide, rfl, rfl, by decide⟩

/-- Claim C6: for a non-hostile value with an own, configurable custom
tag-override set to word `W`, the stable `unmaskTag` returns the
engine-intrinsic tag of the value, and after the call the own property at the
tag-override key again holds `W` with its original descriptor. -/
theorem unmask_reveals_and_restores (o : ObjState) (W : String) (wr en : Bool)
    (hown : o.own = some (.dataDesc (some W) wr en true))
    (hg : o.gopdThrows = false) (hget : o.getThrows = false)
    (hm : o.defineFails o.defineCount = false)
    (hr : o.defineFails (o.defineCount + 1) = false) :
    (unmaskTag (.vObj o)).1 = .ok ("[object " ++ o.builtin.text ++ "]") ∧
    ownOf (unmaskTag (.vObj o)).2 = some (.dataDesc (some W) wr en true) := by
  have h := unmaskTagObj_success_path o (.dataDesc (some W) wr en true)
    hg hown rfl hget hm hr
  constructor
  · show (unmaskTagObj o).1 = _
    rw [h]
  · show ownOf (.vObj (unmaskTagObj o).2) = _
    rw [h]
    rfl

/-- Witness for claim C6 at the spec's example: own override "Custom" on a
plain object is revealed as "[object Object]" and restored. -/
theorem unmask_reveals_and_restores_witness :
    customTagged.own = some (.dataDesc (some "Custom") true true true) ∧
      customTagged.gopdThrows = false ∧
      customTagged.getThrows = false ∧
      customTagged.defineFails customTagged.defineCount = false ∧
      customTagged.defineFails (customTagged.defineCount + 1) = false ∧
      (unmaskTag (.vObj customTagged)).1 =
        .ok ("[object " ++ customTagged.builtin.text ++ "]") ∧
      ownOf (unmaskTag (.vObj customTagged)).2 =
        some (.dataDesc (some "Custom") true true true) :=
  ⟨rfl, rfl, rfl, rfl, rfl,
    (unmask_reveals_and_restores customTagged "Custom" true true rfl rfl rfl rfl rfl).1,
    (unmask_reveals_and_restores customTagged "Custom" true true rfl rfl rfl rfl rfl).2⟩

theorem tagForm_inj {a b : String}
    (h : "[object " ++ a ++ "]" = "[object " ++ b ++ "]") : a = b := by
  have hd := congrArg String.data h
  rw [String.data_append, String.data_append, String.data_append,
    String.data_append] at hd
  exact String.ext (List.append_cancel_left (List.append_cancel_right hd))

/-- Claim C10: for an object-like value with an own, configurable tag-override
`W` and a different override `P` inherited from its prototype, the stable
`unmaskTag` returns the engine-intrinsic tag, not the inherited override: the
own masking definition (value undefined) shadows the inherited override during
the masked read. -/
theorem unmask_shadows_inherited_override (o : ObjState) (W P : String)
    (wr en : Bool)
    (hown : o.own = some (.dataDesc (some W) wr en true))
    (_hinh : o.inherited = some P) (_hWP : W ≠ P) (hne : P ≠ o.builtin.text)
    (hg : o.gopdThrows = false) (hget : o.getThrows = false)
    (hm : o.defineFails o.defineCount = false)
    (hr : o.defineFails (o.defineCount + 1) = false) :
    (unmaskTag (.vObj o)).1 = .ok ("[object " ++ o.builtin.text ++ "]") ∧
    (unmaskTag (.vObj o)).1 ≠ .ok ("[object " ++ P ++ "]") := by
  have h := unmaskTagObj_success_path o (.dataDesc (some W) wr en true)
    hg hown rfl hget hm hr
  have h1 : (unmaskTag (.vObj o)).1 = .ok ("[object " ++ o.builtin.text ++ "]") := by
    show (unmaskTagObj o).1 = _
    rw [h]
  refine ⟨h1, ?_⟩
  rw [h1]
  intro hcontra
  injection hcontra with hs
  exact hne (tagForm_inj hs).symm

/-- A plain object with own override "Custom" shadowing an inherited override
"Proto". -/
def protoShadowObj : ObjState :=
  { customTagged with inherited := some "Proto" }

/-- Witness for claim C10 at a plain object with own override "Custom" and
inherited override "Proto". -/
theorem unmask_shadows_inherited_override_witness :
    protoShadowObj.own = some (.dataDesc (some "Custom") true true true) ∧
      protoShadowObj.inherited = some "Proto" ∧
      "Custom" ≠ "Proto" ∧
      "Proto" ≠ protoShadowObj.builtin.text ∧
      (unmaskTag (.vObj protoShadowObj)).1 =
        .ok ("[object " ++ protoShadowObj.builtin.text ++ "]") :=
  ⟨rfl, rfl, by decide, by decide,
    (unmask_shadows_inherited_override protoShadowObj "Custom" "Proto" true true
      rfl rfl (by decide) (by decide) rfl rfl rfl rfl).1⟩

/-- A nonempty all-word-characters string, per the fuzz test's regex class. -/
def wordStr (s : String) : Prop :=
  s.data ≠ [] ∧ s.data.all isWordChar = true

/-- The string value of an own tag-override data descriptor, when there is
one, is a word. -/
def ownValueWords : Option Descriptor → Prop
  | some (.dataDesc (some w) _ _ _) => wordStr w
  | _ => True

/-- Every custom override string the value carries (own or inherited) is a
nonempty word. -/
def overridesAreWords : TagValue → Prop
  | .vObj o => ownValueWords o.own ∧ (∀ w, o.inherited = some w → wordStr w)
  | _ => True

theorem nativeToStringObj_format (o : ObjState) (h1 : ownValueWords o.own)
    (h2 : ∀ w, o.inherited = some w → wordStr w) :
    ∀ s, nativeToStringObj o = .ok s → tagPatternB s = true := by
  intro s hs
  unfold nativeToStringObj getTagProp at hs
  by_cases hg : o.getThrows
  · simp [hg] at hs
  · simp only [hg, if_false] at hs
    cases ho : o.own with
    | some dd =>
      rw [ho] at hs
      cases dd with
      | dataDesc v wrb enb cfb =>
        cases v with
        | some w =>
          simp only at hs
          have hw : wordStr w := by
            rw [ho] at h1
            exact h1
          injection hs with hs1
          rw [← hs1]
          exact tagPatternB_tagForm w hw.1 hw.2
        | none =>
          simp only at hs
          injection hs with hs1
          rw [← hs1]
          exact tagPatternB_tagForm o.builtin.text (engineTag_text_word o.builtin).1
            (engineTag_text_word o.builtin).2
      | accessorThrows enb cfb => simp at hs
    | none =>
      rw [ho] at hs
      cases hi : o.inherited with
      | some w =>
        rw [hi] at hs
        simp only at hs
        injection hs with hs1
        rw [← hs1]
        exact tagPatternB_tagForm w (h2 w hi).1 (h2 w hi).2
      | none =>
        rw [hi] at hs
        simp only at hs
        injection hs with hs1
        rw [← hs1]
        exact tagPatternB_tagForm o.builtin.text (engineTag_text_word o.builtin).1
          (engineTag_text_word o.builtin).2

theorem safeTag_format (v : TagValue) (h : overridesAreWords v) :
    ∀ s, (safeTag v).1 = .ok s → tagPatternB s = true := by
  intro s hs
  cases v with
  | vNull =>
    injection hs with hs1
    rw [← hs1]
    decide
  | vUndefined =>
    injection hs with hs1
    rw [← hs1]
    decide
  | vPrim t =>
    injection hs with hs1
    rw [← hs1]
    exact tagPatternB_tagForm t.text (engineTag_text_word t).1 (engineTag_text_word t).2
  | vObj o =>
    obtain ⟨h1, h2⟩ := h
    have hred : (safeTag (.vObj o)).1 =
        (match nativeToStringObj o with
         | .ok s => (Except.ok s : Except Unit String)
         | .error _ => .ok "[object Object]") := by
      show (match nativeToStringObj o with
        | .ok s => ((Except.ok s : Except Unit String), TagValue.vObj o)
        | .error _ => (.ok "[object Object]", .vObj o)).1 = _
      cases nativeToStringObj o <;> rfl
    rw [hred] at hs
    cases ht : nativeToStringObj o with
    | ok s2 =>
      rw [ht] at hs
      simp only at hs
      injection hs with hs1
      rw [← hs1]
      exact nativeToStringObj_format o h1 h2 s2 ht
    | error e =>
      rw [ht] at hs
      simp only at hs
      injection hs with hs1
      rw [← hs1]
      decide

theorem unmaskTagObj_format (o : ObjState) (h1 : ownValueWords o.own)
    (h2 : ∀ w, o.inherited = some w → wordStr w) :
    ∀ s, (unmaskTagObj o).1 = .ok s → tagPatternB s = true := by
  simp only [unmaskTagObj]
  split
  · exact fun s hs => safeTag_format (.vObj o) ⟨h1, h2⟩ s hs
  · exact fun s hs => safeTag_format (.vObj o) ⟨h1, h2⟩ s hs
  next d heq =>
    have hown : o.own = some d := getOwnDescriptorE_ok heq
    split
    · exact fun s hs => safeTag_format (.vObj o) ⟨h1, h2⟩ s hs
    · split
      next e o₁ hdef =>
        have he := definePropertyE_error_state hdef
        have hio : o₁.inherited = o.inherited := by rw [he]
        have hoo : o₁.own = o.own := by rw [he]
        have hif : (definePropertyE o₁ d).2.inherited = o.inherited :=
          ((definePropertyE_frame o₁ d).2.1).trans hio
        intro s hs
        refine safeTag_format (.vObj (definePropertyE o₁ d).2) ⟨?_, ?_⟩ s hs
        · rcases (definePropertyE_frame o₁ d).2.2 with hq | hq
          · rw [hq, hoo]
            exact h1
          · rw [hq]
            show ownValueWords (some d)
            rw [hown] at h1
            exact h1
        · intro w hw
          exact h2 w (hif.symm.trans hw)
      next u o₁ hdef =>
        have he := definePropertyE_ok_state hdef
        have hio : o₁.inherited = o.inherited := by rw [he]
        have hoo : o₁.own = some maskDesc := by rw [he]
        have hif : (definePropertyE o₁ d).2.inherited = o.inherited :=
          ((definePropertyE_frame o₁ d).2.1).trans hio
        split
        next s2 hread =>
          intro s hs
          injection hs with hs1
          rw [← hs1]
          refine nativeToStringObj_format o₁ ?_ ?_ s2 hread
          · rw [hoo]
            show ownValueWords (some maskDesc)
            trivial
          · intro w hw
            exact h2 w (hio.symm.trans hw)
        next e hread =>
          intro s hs
          refine safeTag_format (.vObj (definePropertyE o₁ d).2) ⟨?_, ?_⟩ s hs
          · rcases (definePropertyE_frame o₁ d).2.2 with hq | hq
            · rw [hq, hoo]
              show ownValueWords (some maskDesc)
              trivial
            · rw [hq]
              show ownValueWords (some d)
              rw [hown] at h1
              exact h1
          · intro w hw
            exact h2 w (hif.symm.trans hw)

/-- Claim C7 (amended): every string returned by `safeTag` or `unmaskTag` has
the shape "[object W]"; `W` is guaranteed to be a nonempty run of word
characters whenever the custom override strings the value carries are
themselves nonempty word strings (the engine's builtin identifiers always
are).  An override containing non-word characters appears verbatim in the
output, so the unconditional claim fails. -/
theorem tag_output_format_amended (v : TagValue) (h : overridesAreWords v) :
    (∀ s, (safeTag v).1 = .ok s → tagPatternB s = true) ∧
    (∀ s, (unmaskTag v).1 = .ok s → tagPatternB s = true) := by
  refine ⟨safeTag_format v h, ?_⟩
  cases v with
  | vNull => exact safeTag_format .vNull h
  | vUndefined => exact safeTag_format .vUndefined h
  | vPrim t => exact safeTag_format (.vPrim t) h
  | vObj o => exact fun s hs => unmaskTagObj_format o h.1 h.2 s hs

/-- Witness for the amended claim C7 at a plain object with word override
"Custom". -/
theorem tag_output_format_amended_witness :
    overridesAreWords (.vObj customTagged) ∧
      tagPatternB "[object Custom]" = true ∧
      tagPatternB "[object Object]" = true :=
  ⟨⟨⟨by decide, by decide⟩, fun w hw => by cases hw⟩,
    (tag_output_format_amended (.vObj customTagged)
      ⟨⟨by decide, by decide⟩, fun w hw => by cases hw⟩).1 "[object Custom]" rfl,
    (tag_output_format_amended (.vObj customTagged)
      ⟨⟨by decide, by decide⟩, fun w hw => by cases hw⟩).2 "[object Object]" rfl⟩

/-- A plain object whose own configurable override is not a word. -/
def badWordObj : ObjState :=
  { customTagged with own := some (.dataDesc (some "Not A Word!") true true true) }

/-- Claim C7 counterexample: a custom override containing spaces and
punctuation flows through `safeTag` verbatim, so the output does not match the
pattern "[object <word characters>]". -/
theorem tag_output_format_counterexample :
    (safeTag (.vObj badWordObj)).1 = .ok "[object Not A Word!]" ∧
      tagPatternB "[object Not A Word!]" = false :=
  ⟨rfl, by decide⟩

theorem safeTag_obj_eq (o q : ObjState) (hown : q.own = o.own)
    (hinh : q.inherited = o.inherited) (hb : q.builtin = o.builtin)
    (hgt : q.getThrows = o.getThrows) :
    (safeTag (.vObj q)).1 = (safeTag (.vObj o)).1 := by
  have hn : nativeToStringObj q = nativeToStringObj o := by
    unfold nativeToStringObj getTagProp
    rw [hown, hinh, hb, hgt]
  show (match nativeToStringObj q with
    | .ok s => ((Except.ok s : Except Unit String), TagValue.vObj q)
    | .error _ => (.ok "[object Object]", .vObj q)).1 =
    (match nativeToStringObj o with
    | .ok s => ((Except.ok s : Except Unit String), TagValue.vObj o)
    | .error _ => (.ok "[object Object]", .vObj o)).1
  rw [hn]
  cases nativeToStringObj o <;> rfl

theorem unmaskTagObj_gopd_throws (o : ObjState) (hg : o.gopdThrows = true) :
    unmaskTagObj o = ((safeTag (.vObj o)).1, o) := by
  have h : getOwnDescriptorE o = .error () := by simp [getOwnDescriptorE, hg]
  simp only [unmaskTagObj, h]

theorem unmaskTagObj_no_own (o : ObjState) (hg : o.gopdThrows = false)
    (hown : o.own = none) :
    unmaskTagObj o = ((safeTag (.vObj o)).1, o) := by
  have h : getOwnDescriptorE o = .ok none := by simp [getOwnDescriptorE, hg, hown]
  simp only [unmaskTagObj, h]

theorem unmaskTagObj_nonconfigurable (o : ObjState) (d : Descriptor)
    (hg : o.gopdThrows = false) (hown : o.own = some d)
    (hc : d.configurable = false) :
    unmaskTagObj o = ((safeTag (.vObj o)).1, o) := by
  have h : getOwnDescriptorE o = .ok (some d) := by simp [getOwnDescriptorE, hg, hown]
  simp only [unmaskTagObj, h, hc, if_true]

theorem unmaskTagObj_mask_fail (o : ObjState) (d : Descriptor)
    (hg : o.gopdThrows = false) (hown : o.own = some d) (hc : d.configurable = true)
    (hm : o.defineFails o.defineCount = true)
    (hm2 : o.defineFails (o.defineCount + 1) = true) :
    unmaskTagObj o =
      ((safeTag (.vObj { o with defineCount := o.defineCount + 2 })).1,
       { o with defineCount := o.defineCount + 2 }) := by
  have hgo : getOwnDescriptorE o = .ok (some d) := by
    simp [getOwnDescriptorE, hg, hown]
  have hcf : (d.configurable = false) = False := by simp [hc]
  have hd1 := definePropertyE_fail o maskDesc hm
  have hd2 := definePropertyE_fail { o with defineCount := o.defineCount + 1 } d
    (by simpa using hm2)
  simp only [unmaskTagObj, hgo, hcf, if_false, hd1, hd2]

theorem unmaskTagObj_read_throws (o : ObjState) (d : Descriptor)
    (hg : o.gopdThrows = false) (hown : o.own = some d) (hc : d.configurable = true)
    (hgt : o.getThrows = true)
    (hm : o.defineFails o.defineCount = false)
    (hr : o.defineFails (o.defineCount + 1) = false) :
    unmaskTagObj o =
      ((safeTag (.vObj { o with defineCount := o.defineCount + 2, own := some d })).1,
       { o with defineCount := o.defineCount + 2, own := some d }) := by
  have hgo : getOwnDescriptorE o = .ok (some d) := by
    simp [getOwnDescriptorE, hg, hown]
  have hcf : (d.configurable = false) = False := by simp [hc]
  have hd1 := definePropertyE_succ o maskDesc hm
  have hmaskerr : nativeToStringObj
      { o with defineCount := o.defineCount + 1, own := some maskDesc } =
      .error () := by
    simp [nativeToStringObj, getTagProp, hgt]
  have hd2 := definePropertyE_succ
    { o with defineCount := o.defineCount + 1, own := some maskDesc } d
    (by simpa using hr)
  simp only [unmaskTagObj, hgo, hcf, if_false, hd1, hmaskerr, hd2]

/-- Define-trap behaviour that does not depend on how many define calls the
value has seen — the formal reading of calling the operation twice "on the
same unchanged value" for a value whose only hidden state is its define trap. -/
def constantDefines : TagValue → Prop
  | .vObj o => ∀ n m : Nat, o.defineFails n = o.defineFails m
  | _ => True

theorem unmaskTagObj_idem (o : ObjState)
    (hdb : ∀ n m : Nat, o.defineFails n = o.defineFails m) :
    (unmaskTagObj (unmaskTagObj o).2).1 = (unmaskTagObj o).1 := by
  cases hg : o.gopdThrows with
  | true =>
    rw [unmaskTagObj_gopd_throws o hg]
    show (unmaskTagObj o).1 = _
    rw [unmaskTagObj_gopd_throws o hg]
  | false =>
    cases hone : o.own with
    | none =>
      rw [unmaskTagObj_no_own o hg hone]
      show (unmaskTagObj o).1 = _
      rw [unmaskTagObj_no_own o hg hone]
    | some d =>
      cases hcb : d.configurable with
      | false =>
        rw [unmaskTagObj_nonconfigurable o d hg hone hcb]
        show (unmaskTagObj o).1 = _
        rw [unmaskTagObj_nonconfigurable o d hg hone hcb]
      | true =>
        cases hdb0 : o.defineFails o.defineCount with
        | true =>
          have hm2 : o.defineFails (o.defineCount + 1) = true :=
            (hdb _ _).trans hdb0
          rw [unmaskTagObj_mask_fail o d hg hone hcb hdb0 hm2]
          show (unmaskTagObj { o with defineCount := o.defineCount + 2 }).1 = _
          rw [unmaskTagObj_mask_fail { o with defineCount := o.defineCount + 2 } d
            hg hone hcb ((hdb _ _).trans hdb0) ((hdb _ _).trans hdb0)]
          exact safeTag_obj_eq _ _ rfl rfl rfl rfl
        | false =>
          have hm2 : o.defineFails (o.defineCount + 1) = false :=
            (hdb _ _).trans hdb0
          cases hgt : o.getThrows with
          | false =>
            rw [unmaskTagObj_success_path o d hg hone hcb hgt hdb0 hm2]
            show (unmaskTagObj
              { o with defineCount := o.defineCount + 2, own := some d }).1 = _
            rw [unmaskTagObj_success_path
              { o with defineCount := o.defineCount + 2, own := some d } d
              hg rfl hcb hgt ((hdb _ _).trans hdb0) ((hdb _ _).trans hdb0)]
          | true =>
            rw [unmaskTagObj_read_throws o d hg hone hcb hgt hdb0 hm2]
            show (unmaskTagObj
              { o with defineCount := o.defineCount + 2, own := some d }).1 = _
            rw [unmaskTagObj_read_throws
              { o with defineCount := o.defineCount + 2, own := some d } d
              hg rfl hcb hgt ((hdb _ _).trans hdb0) ((hdb _ _).trans hdb0)]
            exact safeTag_obj_eq _ _ rfl rfl rfl rfl

/-- Claim C8: calling `safeTag` twice in succession on the same unchanged
value yields the same result both times, and likewise for `unmaskTag` — where
"unchanged" requires the value's trap behaviour not to vary between calls
(`constantDefines`); `safeTag` never mutates, and `unmaskTag`'s only possible
carry-over is its define-trap call counter. -/
theorem safeTag_unmaskTag_idempotent (v : TagValue) (h : constantDefines v) :
    (safeTag ((safeTag v).2)).1 = (safeTag v).1 ∧
    (unmaskTag ((unmaskTag v).2)).1 = (unmaskTag v).1 := by
  constructor
  · rw [safeTag_state v]
  · cases v with
    | vNull => rfl
    | vUndefined => rfl
    | vPrim t => rfl
    | vObj o =>
      show (unmaskTagObj (unmaskTagObj o).2).1 = (unmaskTagObj o).1
      exact unmaskTagObj_idem o h

/-- Witness for claim C8 at a plain object with own override "Custom" and a
constant (never-failing) define trap. -/
theorem safeTag_unmaskTag_idempotent_witness :
    constantDefines (.vObj customTagged) ∧
      (unmaskTag ((unmaskTag (.vObj customTagged)).2)).1 =
        (unmaskTag (.vObj customTagged)).1 :=
  ⟨fun _ _ => rfl,
    (safeTag_unmaskTag_idempotent (.vObj customTagged) (fun _ _ => rfl)).2⟩
